import Mathlib

/-!
Verification of the irradiance imputation repository.

Shallow embedding of `src/correct_missing_data.py` and the configuration
constants of `src/visualizing_irradiance_3d.py`.

A pandas `DataFrame` of the shape assumed by `fill_missing_irradiance_data`
(a `Date` column, a `Day` column, then one nullable-float column per year)
is modelled as a `Table`: the two leading identifier columns become the
`date` and `day` fields of each `Row`, the year-column cells become a list
of `Option ℚ` (`none` is pandas `NaN`), and the year-column names
(`df.columns[2:]`) are kept in `yearCols`.  Missingness is the only role
`NaN` plays in the source, so `Option` captures it; values are rationals,
standing for exact real arithmetic.
-/

/-- One row of the spreadsheet: the two identifier columns and the
year-column cells (`none` = missing / `NaN`). -/
structure Row where
  date : String
  day : Int
  cells : List (Option ℚ)
  deriving Repr, DecidableEq

/-- The in-memory table: the names of the columns after the first two
(`df.columns[2:]`, assumed to be the years) and the rows. -/
structure Table where
  yearCols : List Int
  rows : List Row
  deriving Repr, DecidableEq

/-- The non-`NaN` values of a row's year cells: what `np.nanmean` averages. -/
def nonNullValues (cells : List (Option ℚ)) : List ℚ :=
  cells.filterMap id

/-- Model of `np.nanmean(irradiance_values_in_row)`: the mean of the non-`NaN`
values, or `none` (standing for `NaN`) when every value is missing —
including the empty case of zero year-columns, where `np.nanmean` also
yields `NaN` (with a warning, not an error). -/
def nanmean (cells : List (Option ℚ)) : Option ℚ :=
  let vs := nonNullValues cells
  if vs.length = 0 then none else some (vs.sum / vs.length)

/-- The body of the `for index, row in df_filled.iterrows()` loop for one
row's year cells: if `row_mean` is not `NaN`, replace the cells by
`row[irradiance_cols].fillna(row_mean)`; otherwise leave the row alone. -/
def fillRowCells (cells : List (Option ℚ)) : List (Option ℚ) :=
  match nanmean cells with
  | none => cells
  | some m => cells.map (fun c => some (c.getD m))

/-- The loop body applied to a whole row: identifier columns untouched. -/
def fillRow (r : Row) : Row :=
  { r with cells := fillRowCells r.cells }

/-- Model of `fill_missing_irradiance_data`: copy the frame and fill each row's
`NaN` year-cells with that row's `np.nanmean`, when it is defined. -/
def fill_missing_irradiance_data (t : Table) : Table :=
  { t with rows := t.rows.map fillRow }

/-- The year cells of row `i` of a table (`[]` past the end). -/
def cellsOfRow (t : Table) (i : Nat) : List (Option ℚ) :=
  match t.rows[i]? with
  | some r => r.cells
  | none => []

/-- Cell `j` of row `i`: `none` when out of range, otherwise
`some none` (a missing cell) or `some (some v)`. -/
def cellAt (t : Table) (i j : Nat) : Option (Option ℚ) :=
  (cellsOfRow t i)[j]?

/-- Model of `df_filled[irradiance_cols].isnull().sum().sum()`: the number of
missing year-cells of the table. -/
def countNulls (t : Table) : Nat :=
  (t.rows.map (fun r => (r.cells.filter Option.isNone).length)).sum

/-- What the two `print` calls of `fill_missing_irradiance_data` report:
the identified year-columns and the missing counts before and after. -/
structure Diagnostics where
  cols : List Int
  nullsBefore : Nat
  nullsAfter : Nat
  deriving Repr, DecidableEq

/-- The function `fill_missing_irradiance_data` together with its diagnostic channel:
the returned table and the three printed facts. -/
def fillWithDiagnostics (t : Table) : Table × Diagnostics :=
  let t' := fill_missing_irradiance_data t
  (t', { cols := t.yearCols
         nullsBefore := countNulls t
         nullsAfter := countNulls t' })

/-- The one-row table of the spec's worked example:
year columns `{2013: 0.1, 2014: NaN, 2015: NaN, 2016: 0.12}`. -/
def exampleRowTable : Table :=
  { yearCols := [2013, 2014, 2015, 2016]
    rows := [⟨"2023-01-01 00:00:00", 1,
      [some (1/10), none, none, some (12/100)]⟩] }

/-- The sample `DataFrame` built in the `__main__` block of
`correct_missing_data.py`: 5 rows, 4 year-columns, exactly 5 `NaN`s. -/
def sample_df : Table :=
  { yearCols := [2013, 2014, 2015, 2016]
    rows := [
      ⟨"2023-01-01 00:00:00", 1, [some (1/10),  some (15/100), none,          some (12/100)]⟩,
      ⟨"2023-01-01 00:05:00", 1, [some (2/10),  none,          some (22/100), some (23/100)]⟩,
      ⟨"2023-01-01 00:10:00", 1, [none,         some (35/100), some (32/100), some (33/100)]⟩,
      ⟨"2023-01-01 00:15:00", 1, [some (4/10),  some (45/100), none,          some (43/100)]⟩,
      ⟨"2023-01-01 00:20:00", 1, [some (5/10),  some (55/100), some (52/100), none]⟩] }

-- sanity checks on the sample rows of the spec
example :
    fillRowCells [some (1/10), none, none, some (12/100)]
      = [some (1/10), some (11/100), some (11/100), some (12/100)] := by
  simp [fillRowCells, nanmean, nonNullValues]
  norm_num

example : fillRowCells [none, none] = [none, none] := by
  simp [fillRowCells, nanmean, nonNullValues]

example : fillRowCells ([] : List (Option ℚ)) = [] := by
  simp [fillRowCells, nanmean, nonNullValues]

/-! Section Basic lemmas about one loop iteration -/

/-- The mean `np.nanmean` is `NaN` exactly when every value of the row is missing. -/
theorem nanmean_eq_none_iff (cells : List (Option ℚ)) :
    nanmean cells = none ↔ ∀ c ∈ cells, c = none := by
  unfold nanmean nonNullValues
  simp only [List.length_eq_zero]
  constructor
  · intro h
    by_cases hnil : cells.filterMap id = []
    · intro c hc
      have := List.filterMap_eq_nil_iff.mp hnil c hc
      simpa using this
    · simp [hnil] at h
  · intro h
    have : cells.filterMap id = [] := by
      apply List.filterMap_eq_nil_iff.mpr
      intro c hc
      simpa using h c hc
    simp [this]

/-- A row is left untouched when its mean is undefined. -/
theorem fillRowCells_of_none (cells : List (Option ℚ))
    (h : nanmean cells = none) : fillRowCells cells = cells := by
  unfold fillRowCells
  rw [h]

/-- When the mean is defined, the loop writes `fillna(row_mean)`. -/
theorem fillRowCells_of_some (cells : List (Option ℚ)) (m : ℚ)
    (h : nanmean cells = some m) :
    fillRowCells cells = cells.map (fun c => some (c.getD m)) := by
  unfold fillRowCells
  rw [h]

/-- One loop iteration preserves the number of year-cells in the row. -/
theorem fillRowCells_length (cells : List (Option ℚ)) :
    (fillRowCells cells).length = cells.length := by
  unfold fillRowCells
  cases h : nanmean cells <;> simp

/-- Filling commutes with selecting row `i`: the output's row `i` cells are
the loop body applied to the input's row `i` cells. -/
theorem cellsOfRow_fill (t : Table) (i : Nat) :
    cellsOfRow (fill_missing_irradiance_data t) i
      = fillRowCells (cellsOfRow t i) := by
  unfold cellsOfRow fill_missing_irradiance_data
  rw [List.getElem?_map]
  cases h : t.rows[i]? with
  | none => simp [fillRowCells, nanmean, nonNullValues]
  | some r => simp [fillRow]

/-- Cell-level version of `cellsOfRow_fill`. -/
theorem cellAt_fill (t : Table) (i j : Nat) :
    cellAt (fill_missing_irradiance_data t) i j
      = (fillRowCells (cellsOfRow t i))[j]? := by
  unfold cellAt
  rw [cellsOfRow_fill]

/-! Section C1: output cell null iff the whole input row was null -/

/-- C1.  For every table and every year-cell `(i, j)` that exists in the
input, the cell is null after `fill_missing_irradiance_data` if and only if
every year-cell of row `i` was null in the input: a row with at least one
observed value comes out with no null, and a fully-missing row keeps all
its nulls (no fallback, no zero-fill). -/
theorem impute_null_iff_row_all_null (t : Table) (i j : Nat) (c : Option ℚ)
    (hc : cellAt t i j = some c) :
    (cellAt (fill_missing_irradiance_data t) i j = some none
      ↔ ∀ x ∈ cellsOfRow t i, x = none) := by
  rw [cellAt_fill]
  unfold cellAt at hc
  cases h : nanmean (cellsOfRow t i) with
  | none =>
    rw [fillRowCells_of_none _ h]
    have hall := (nanmean_eq_none_iff _).mp h
    have : c = none := hall c (List.getElem?_mem hc)
    subst this
    exact iff_of_true hc hall
  | some m =>
    rw [fillRowCells_of_some _ m h]
    constructor
    · intro hcontra
      rw [List.getElem?_map, hc] at hcontra
      simp at hcontra
    · intro hall
      exact absurd ((nanmean_eq_none_iff _).mpr hall) (by simp [h])

/-- Witness for C1: in the sample table, row 2 has its 2013 cell missing
but other cells present, and after imputation that cell is non-null. -/
theorem impute_null_iff_row_all_null_witness :
    cellAt sample_df 2 0 = some none ∧
    ¬ (cellAt (fill_missing_irradiance_data sample_df) 2 0 = some none) := by
  have h0 : cellAt sample_df 2 0 = some none := by
    simp [cellAt, cellsOfRow, sample_df]
  refine ⟨h0, ?_⟩
  rw [impute_null_iff_row_all_null sample_df 2 0 none h0]
  intro hall
  have := hall (some (35/100)) (by simp [cellsOfRow, sample_df])
  simp at this

/-! Section C2: non-null cells are never overwritten -/

/-- C2.  Every cell holding a value in the input holds the same value in
the output: imputation never overwrites existing data, the row mean is
only written into cells that were null. -/
theorem impute_preserves_nonnull (t : Table) (i j : Nat) (v : ℚ)
    (hv : cellAt t i j = some (some v)) :
    cellAt (fill_missing_irradiance_data t) i j = some (some v) := by
  rw [cellAt_fill]
  unfold cellAt at hv
  cases h : nanmean (cellsOfRow t i) with
  | none => rw [fillRowCells_of_none _ h]; exact hv
  | some m =>
    rw [fillRowCells_of_some _ m h, List.getElem?_map, hv]
    simp

/-- Witness for C2: the sample table's row 0 keeps its 2013 value 0.1. -/
theorem impute_preserves_nonnull_witness :
    cellAt sample_df 0 0 = some (some (1/10)) ∧
    cellAt (fill_missing_irradiance_data sample_df) 0 0 = some (some (1/10)) := by
  have h0 : cellAt sample_df 0 0 = some (some (1/10)) := by
    simp [cellAt, cellsOfRow, sample_df]
  exact ⟨h0, impute_preserves_nonnull sample_df 0 0 (1/10) h0⟩

/-! Section C3: null cells are filled with the row's mean of observed values -/

/-- When at least one value of the row is observed, `np.nanmean` is the
arithmetic mean of the observed values. -/
theorem nanmean_of_ne_nil (cells : List (Option ℚ))
    (h : nonNullValues cells ≠ []) :
    nanmean cells
      = some ((nonNullValues cells).sum / (nonNullValues cells).length) := by
  unfold nanmean
  rw [if_neg]
  simpa using h

/-- A null cell of a row with at least one observed value is replaced by
the mean of the row's observed values. -/
theorem fillRowCells_get_of_null (cells : List (Option ℚ)) (j : Nat)
    (hnull : cells[j]? = some none) (hne : nonNullValues cells ≠ []) :
    (fillRowCells cells)[j]?
      = some (some ((nonNullValues cells).sum / (nonNullValues cells).length)) := by
  rw [fillRowCells_of_some _ _ (nanmean_of_ne_nil cells hne), List.getElem?_map,
    hnull]
  simp

/-- C3.  In every row with at least one observed year value, every cell
that was null in the input holds, after `fill_missing_irradiance_data`,
exactly the arithmetic mean of that row's originally non-null year values
(sum of the observed values divided by their count). -/
theorem impute_fills_null_with_row_mean (t : Table) (i j : Nat)
    (hnull : cellAt t i j = some none)
    (hne : nonNullValues (cellsOfRow t i) ≠ []) :
    cellAt (fill_missing_irradiance_data t) i j
      = some (some ((nonNullValues (cellsOfRow t i)).sum
          / (nonNullValues (cellsOfRow t i)).length)) := by
  rw [cellAt_fill]
  exact fillRowCells_get_of_null _ j hnull hne

/-- Witness for C3: the spec's worked example row
`{2013: 0.1, 2014: NaN, 2015: NaN, 2016: 0.12}` gets `0.11` (the mean of
`0.1` and `0.12`) in its 2014 cell. -/
theorem impute_fills_null_with_row_mean_witness :
    cellAt exampleRowTable 0 1 = some none ∧
    cellAt (fill_missing_irradiance_data exampleRowTable) 0 1
      = some (some (11/100)) := by
  have h1 : cellAt exampleRowTable 0 1 = some none := by
    simp [cellAt, cellsOfRow, exampleRowTable]
  have h2 := impute_fills_null_with_row_mean exampleRowTable 0 1 h1
    (by simp [nonNullValues, cellsOfRow, exampleRowTable])
  refine ⟨h1, ?_⟩
  rw [h2]
  norm_num [nonNullValues, cellsOfRow, exampleRowTable, List.filterMap_cons]

/-! Section C4: shape, column names and identifier columns are preserved -/

/-- C4.  The output of `fill_missing_irradiance_data` has the same column
names in the same order (the two fixed leading identifier columns and
`yearCols`), the same number of rows, and each row keeps its `Date` and
`Day` identifier values.  The embedding is a pure function, matching the
source's `df.copy()`: the input table itself is never mutated. -/
theorem impute_preserves_shape (t : Table) :
    (fill_missing_irradiance_data t).yearCols = t.yearCols ∧
    (fill_missing_irradiance_data t).rows.length = t.rows.length ∧
    ∀ i : Nat,
      ((fill_missing_irradiance_data t).rows[i]?).map (fun r => (r.date, r.day))
        = (t.rows[i]?).map (fun r => (r.date, r.day)) := by
  refine ⟨rfl, by simp [fill_missing_irradiance_data], ?_⟩
  intro i
  unfold fill_missing_irradiance_data
  rw [List.getElem?_map]
  cases t.rows[i]? with
  | none => rfl
  | some r => simp [fillRow]

/-! Section C5: imputation is idempotent -/

/-- One loop iteration is idempotent on a row's cells: a second pass either
finds no mean to apply or only re-fills cells that are already non-null. -/
theorem fillRowCells_idem (cells : List (Option ℚ)) :
    fillRowCells (fillRowCells cells) = fillRowCells cells := by
  cases h : nanmean cells with
  | none =>
    rw [fillRowCells_of_none _ h, fillRowCells_of_none _ h]
  | some m =>
    rw [fillRowCells_of_some _ m h]
    cases h' : nanmean (cells.map (fun c => some (c.getD m))) with
    | none => exact fillRowCells_of_none _ h'
    | some m' =>
      rw [fillRowCells_of_some _ m' h', List.map_map]
      simp [Function.comp]

/-- Idempotence lifted to whole rows. -/
theorem fillRow_idem (r : Row) : fillRow (fillRow r) = fillRow r := by
  unfold fillRow
  simp [fillRowCells_idem]

/-- C5.  The operation `fill_missing_irradiance_data` is idempotent: applying it to its
own output returns that output unchanged. -/
theorem impute_idempotent (t : Table) :
    fill_missing_irradiance_data (fill_missing_irradiance_data t)
      = fill_missing_irradiance_data t := by
  unfold fill_missing_irradiance_data
  simp only [Table.mk.injEq, List.map_map, true_and]
  apply List.map_congr_left
  intro r _
  exact fillRow_idem r

/-! Section C6: totality, and the no-year-column case is the identity -/

/-- A table with the two identifier columns and no year-columns: the case
the claim singles out. -/
def noYearColsTable : Table :=
  { yearCols := []
    rows := [⟨"2023-01-01 00:00:00", 1, []⟩, ⟨"2023-01-01 00:05:00", 1, []⟩] }

/-- C6.  The operation `fill_missing_irradiance_data` is a total Lean function — it is
defined on every `Table`, with arbitrarily many (including zero) rows and
year-columns, mirroring that the source raises no error for missing data
(`np.nanmean` of an all-missing or empty row yields `NaN`, which is merely
skipped).  Moreover, on any table whose rows have no year-cells — in
particular any well-formed table with zero year-columns, of any row count
including zero — the output equals the input. -/
theorem impute_total_no_yearcols_id (t : Table)
    (h : ∀ r ∈ t.rows, r.cells = []) :
    fill_missing_irradiance_data t = t := by
  unfold fill_missing_irradiance_data
  have : t.rows.map fillRow = t.rows := by
    conv_rhs => rw [← List.map_id t.rows]
    apply List.map_congr_left
    intro r hr
    show fillRow r = r
    have hc := h r hr
    unfold fillRow
    rw [hc]
    have : fillRowCells [] = [] := by
      simp [fillRowCells, nanmean, nonNullValues]
    rw [this, ← hc]
  rw [this]

/-- Witness for C6: a two-row table with zero year-columns maps to itself. -/
theorem impute_total_no_yearcols_id_witness :
    (∀ r ∈ noYearColsTable.rows, r.cells = []) ∧
    fill_missing_irradiance_data noYearColsTable = noYearColsTable := by
  have h : ∀ r ∈ noYearColsTable.rows, r.cells = [] := by
    intro r hr
    simp only [noYearColsTable, List.mem_cons, List.mem_singleton] at hr
    rcases hr with h | h | h
    · rw [h]
    · rw [h]
    · exact absurd h (List.not_mem_nil r)
  exact ⟨h, impute_total_no_yearcols_id noYearColsTable h⟩

/-! Section C8: rows are processed independently -/

/-- C8.  Row `i` of the output is a function of row `i` of the input
alone: whenever two input tables agree on row `i` (even if they differ
everywhere else, in other rows or in shape), their outputs agree on row
`i`; output row `i` is the filled input row `i`. -/
theorem impute_row_independent (t₁ t₂ : Table) (i : Nat)
    (h : t₁.rows[i]? = t₂.rows[i]?) :
    (fill_missing_irradiance_data t₁).rows[i]?
      = (fill_missing_irradiance_data t₂).rows[i]? := by
  unfold fill_missing_irradiance_data
  simp only [List.getElem?_map, h]

/-- A one-row table agreeing with `sample_df` on row 0 but on nothing
else (different year-column names, no further rows). -/
def rowZeroOnlyTable : Table :=
  { yearCols := [2013, 2014]
    rows := [⟨"2023-01-01 00:00:00", 1,
      [some (1/10), some (15/100), none, some (12/100)]⟩] }

/-- Witness for C8: tables `sample_df` and `rowZeroOnlyTable` agree on row 0, so
their imputed outputs agree on row 0. -/
theorem impute_row_independent_witness :
    sample_df.rows[0]? = rowZeroOnlyTable.rows[0]? ∧
    (fill_missing_irradiance_data sample_df).rows[0]?
      = (fill_missing_irradiance_data rowZeroOnlyTable).rows[0]? := by
  have h : sample_df.rows[0]? = rowZeroOnlyTable.rows[0]? := rfl
  exact ⟨h, impute_row_independent sample_df rowZeroOnlyTable 0 h⟩

/-! Section C7: the diagnostic channel and the null counts it reports -/

/-- One loop iteration never increases the number of nulls in a row. -/
theorem fillRowCells_nullCount_le (cells : List (Option ℚ)) :
    ((fillRowCells cells).filter Option.isNone).length
      ≤ ((cells.filter Option.isNone)).length := by
  cases h : nanmean cells with
  | none => rw [fillRowCells_of_none _ h]
  | some m =>
    rw [fillRowCells_of_some _ m h]
    have : (cells.map (fun c => some (c.getD m))).filter Option.isNone = [] := by
      apply List.filter_eq_nil_iff.mpr
      intro c hc
      rw [List.mem_map] at hc
      obtain ⟨c', -, hc'⟩ := hc
      rw [← hc']
      simp
    rw [this]
    exact Nat.zero_le _

/-- A row holding both a null and an observed value loses all its nulls. -/
theorem fillRowCells_nullCount_lt (cells : List (Option ℚ))
    (h0 : none ∈ cells) (h1 : ∃ c ∈ cells, c ≠ none) :
    ((fillRowCells cells).filter Option.isNone).length
      < ((cells.filter Option.isNone)).length := by
  obtain ⟨c, hc, hcne⟩ := h1
  have hmean : nanmean cells ≠ none := fun hn =>
    hcne ((nanmean_eq_none_iff cells).mp hn c hc)
  obtain ⟨m, hm⟩ := Option.ne_none_iff_exists'.mp hmean
  have hafter : (fillRowCells cells).filter Option.isNone = [] := by
    rw [fillRowCells_of_some _ m hm]
    apply List.filter_eq_nil_iff.mpr
    intro x hx
    rw [List.mem_map] at hx
    obtain ⟨c', -, hc'⟩ := hx
    rw [← hc']
    simp
  rw [hafter]
  simp only [List.length_nil]
  apply List.length_pos.mpr
  intro hnil
  have := List.filter_eq_nil_iff.mp hnil none h0
  simp at this

/-- The nulls of the output, row by row. -/
theorem countNulls_fill (t : Table) :
    countNulls (fill_missing_irradiance_data t)
      = (t.rows.map
          (fun r => ((fillRowCells r.cells).filter Option.isNone).length)).sum := by
  unfold countNulls fill_missing_irradiance_data
  rw [List.map_map]
  rfl

/-- C7.  The pair `fillWithDiagnostics` combines the table produced by
`fill_missing_irradiance_data` with the three reported facts: the
identified year-columns (`df.columns[2:]`), the missing-cell count of the
input and the missing-cell count of the output.  The returned table is
exactly the pure imputation result, so the reports never affect it; the
post-imputation count never exceeds the pre-imputation count, and is
strictly smaller whenever some missing cell lies in a row that also has
an observed value. -/
theorem impute_diagnostics_report (t : Table) :
    (fillWithDiagnostics t).1 = fill_missing_irradiance_data t ∧
    (fillWithDiagnostics t).2.cols = t.yearCols ∧
    (fillWithDiagnostics t).2.nullsBefore = countNulls t ∧
    (fillWithDiagnostics t).2.nullsAfter
      = countNulls (fill_missing_irradiance_data t) ∧
    (fillWithDiagnostics t).2.nullsAfter ≤ (fillWithDiagnostics t).2.nullsBefore ∧
    ((∃ i, none ∈ cellsOfRow t i ∧ ∃ c ∈ cellsOfRow t i, c ≠ none) →
      (fillWithDiagnostics t).2.nullsAfter < (fillWithDiagnostics t).2.nullsBefore) := by
  refine ⟨rfl, rfl, rfl, rfl, ?_, ?_⟩
  · show countNulls (fill_missing_irradiance_data t) ≤ countNulls t
    rw [countNulls_fill]
    unfold countNulls
    exact List.sum_le_sum (fun r _ => fillRowCells_nullCount_le r.cells)
  · rintro ⟨i, h0, h1⟩
    show countNulls (fill_missing_irradiance_data t) < countNulls t
    rw [countNulls_fill]
    unfold countNulls
    have hrow : ∃ r, t.rows[i]? = some r := by
      cases hr : t.rows[i]? with
      | some r => exact ⟨r, rfl⟩
      | none =>
        unfold cellsOfRow at h0
        rw [hr] at h0
        simp at h0
    obtain ⟨r, hr⟩ := hrow
    have hcells : cellsOfRow t i = r.cells := by
      unfold cellsOfRow
      rw [hr]
    rw [hcells] at h0 h1
    exact List.sum_lt_sum _ _
      (fun r' _ => fillRowCells_nullCount_le r'.cells)
      ⟨r, List.getElem?_mem hr, fillRowCells_nullCount_lt r.cells h0 h1⟩

/-- Witness for C7: on the main-block sample table (5 rows, 4
year-columns, 5 missing cells, every row partly observed) the diagnostics
report 5 nulls before and 0 — strictly fewer — after. -/
theorem impute_diagnostics_report_witness :
    (fillWithDiagnostics sample_df).2.nullsBefore = 5 ∧
    (fillWithDiagnostics sample_df).2.nullsAfter = 0 ∧
    (fillWithDiagnostics sample_df).2.nullsAfter
      < (fillWithDiagnostics sample_df).2.nullsBefore := by
  obtain ⟨-, -, h3, h4, -, h6⟩ := impute_diagnostics_report sample_df
  have hex : ∃ i, none ∈ cellsOfRow sample_df i ∧
      ∃ c ∈ cellsOfRow sample_df i, c ≠ none := by
    refine ⟨0, ?_, some (1/10), ?_, ?_⟩ <;> simp [cellsOfRow, sample_df]
  refine ⟨?_, ?_, h6 hex⟩
  · rw [h3]
    decide
  · rw [h4]
    decide

/-! Section C9: the plotting collaborator's fixed configuration -/

/-- Constant `EXCEL_FILE_PATH` of `visualizing_irradiance_3d.py`. -/
def EXCEL_FILE_PATH : String := "Proccess_irradiance_data_2013_2023.xlsx"

/-- Constant `SHEET_NAME` of `visualizing_irradiance_3d.py`. -/
def SHEET_NAME : String := "Enero"

/-- Constant `OUTPUT_FILENAME` of `visualizing_irradiance_3d.py`. -/
def OUTPUT_FILENAME : String := "irradiance_behaviour_3d.png"

/-- Constant `OUTPUT_DPI` of `visualizing_irradiance_3d.py`. -/
def OUTPUT_DPI : Nat := 300

/-- The rendering configuration observable from the plotting script: the
file name and DPI passed to `plt.savefig` in the `__main__` block and the
z-axis range set by `ax.set_zlim(0, 5000)` in `create_3d_irradiance_plot`. -/
structure RenderSettings where
  outputFilename : String
  outputDpi : Nat
  zlimLow : ℚ
  zlimHigh : ℚ
  deriving Repr, DecidableEq

/-- The render settings as a function of everything data-dependent the
plotting pipeline consumes — the time column, the irradiance table subset
and the year labels.  In the source none of these influence the three
configuration values: the filename and DPI are module-level constants and
the z-limits are literals. -/
def renderSettingsOf (_timePoints : List String) (_irradianceDf : Table)
    (_yearsLabels : List Int) : RenderSettings :=
  { outputFilename := OUTPUT_FILENAME
    outputDpi := OUTPUT_DPI
    zlimLow := 0
    zlimHigh := 5000 }

/-- C9.  The plotting collaborator renders with a fixed output filename
(`irradiance_behaviour_3d.png`), a fixed DPI (300) and a fixed z-axis
range (0 to 5000), whatever dataset it is given: the settings of any two
inputs coincide and equal those constants. -/
theorem plot_render_settings_constant
    (tp tp' : List String) (df df' : Table) (yl yl' : List Int) :
    renderSettingsOf tp df yl = renderSettingsOf tp' df' yl' ∧
    renderSettingsOf tp df yl
      = ⟨"irradiance_behaviour_3d.png", 300, 0, 5000⟩ :=
  ⟨rfl, rfl⟩

/-! Section C10: imputed values stay inside the row's observed range -/

/-- The mean of a nonempty list is at most any upper bound of the list. -/
theorem mean_le_of_forall_le (vs : List ℚ) (hne : vs ≠ []) (hi : ℚ)
    (h : ∀ v ∈ vs, v ≤ hi) : vs.sum / vs.length ≤ hi := by
  have hlen : 0 < (vs.length : ℚ) := by
    exact_mod_cast List.length_pos.mpr hne
  rw [div_le_iff₀ hlen]
  have hs := List.sum_le_card_nsmul vs hi h
  rw [nsmul_eq_mul] at hs
  linarith

/-- The mean of a nonempty list is at least any lower bound of the list. -/
theorem le_mean_of_forall_le (vs : List ℚ) (hne : vs ≠ []) (lo : ℚ)
    (h : ∀ v ∈ vs, lo ≤ v) : lo ≤ vs.sum / vs.length := by
  have hlen : 0 < (vs.length : ℚ) := by
    exact_mod_cast List.length_pos.mpr hne
  rw [le_div_iff₀ hlen]
  have hs := List.card_nsmul_le_sum vs lo h
  rw [nsmul_eq_mul] at hs
  linarith

/-- C10.  Every value written by the imputation is bounded by the data it
came from: a cell that was null in a row whose observed values have
minimum `lo` and maximum `hi` is filled with a value `v` with
`lo ≤ v ≤ hi` — never outside the row's observed range (in particular
never negative when all observed values are non-negative). -/
theorem impute_fill_within_observed_range (t : Table) (i j : Nat) (lo hi : ℚ)
    (hnull : cellAt t i j = some none)
    (hlo : (nonNullValues (cellsOfRow t i)).min? = some lo)
    (hhi : (nonNullValues (cellsOfRow t i)).max? = some hi) :
    ∃ v, cellAt (fill_missing_irradiance_data t) i j = some (some v)
      ∧ lo ≤ v ∧ v ≤ hi := by
  have anti : Std.Antisymm ((· : ℚ) ≤ ·) := ⟨fun h1 h2 => le_antisymm h1 h2⟩
  have hne : nonNullValues (cellsOfRow t i) ≠ [] := by
    intro hc
    rw [hc] at hlo
    simp at hlo
  have hlo' := (List.min?_eq_some_iff (fun a => le_refl a) min_choice
    (fun a b c => le_min_iff)).mp hlo
  have hhi' := (List.max?_eq_some_iff (fun a => le_refl a) max_choice
    (fun a b c => max_le_iff)).mp hhi
  refine ⟨(nonNullValues (cellsOfRow t i)).sum
      / (nonNullValues (cellsOfRow t i)).length, ?_, ?_, ?_⟩
  · rw [cellAt_fill]
    exact fillRowCells_get_of_null _ j hnull hne
  · exact le_mean_of_forall_le _ hne lo hlo'.2
  · exact mean_le_of_forall_le _ hne hi hhi'.2

/-- A one-row table whose observed values are 1 and 3, with a missing
middle cell. -/
def boundsRowTable : Table :=
  { yearCols := [2013, 2014, 2015]
    rows := [⟨"2023-01-01 00:00:00", 1, [some 1, none, some 3]⟩] }

/-- Witness for C10: the missing cell of `boundsRowTable` is filled with a
value between the row's observed minimum 1 and maximum 3. -/
theorem impute_fill_within_observed_range_witness :
    ∃ v, cellAt (fill_missing_irradiance_data boundsRowTable) 0 1
      = some (some v) ∧ (1 : ℚ) ≤ v ∧ v ≤ 3 := by
  apply impute_fill_within_observed_range boundsRowTable 0 1 1 3
  · simp [cellAt, cellsOfRow, boundsRowTable]
  · show ([1, 3] : List ℚ).min? = some 1
    simp [List.min?]
  · show ([1, 3] : List ℚ).max? = some 3
    simp [List.max?]
